import Mathlib

/-!
Verification of the `mountinfo` package (`pkg/mountinfo/mountinfo.go`):
a line parser for the kernel mount table exposed at `/proc/self/mountinfo`,
and the mount-point / filesystem-type detector `IsMountFS`.

The Go code is shallowly embedded:
  * `strings.Split(s, " - ")` and `strings.Split(s, " ")` become structural
    functions on `List Char` (`splitDashAux`, `splitSpaceAux`) wrapped for
    `String` (`stringsSplitDash`, `stringsSplitSpace`);
  * `strconv.ParseInt(s, 10, 64)` becomes `ParseInt64`, returning the
    structured content of Go's `*strconv.NumError`;
  * `parseMountInfoFile` consumes the stream as a list of scanned lines
    (one per `scanner.Text()` call) and aborts on the first error, exactly
    as the Go loop does;
  * the syscalls `unix.Lstat` / `unix.Statfs` and the lexical
    `filepath.Dir` are abstracted as an environment `Sys` of functions,
    and `IsMountFS` is a pure function of that environment.
-/

/-- Result of splitting a character list on the three-character separator
`" - "` (space, hyphen, space), leftmost non-overlapping occurrences first,
empty parts kept: the semantics of Go `strings.Split(s, " - ")`.
`acc` holds the characters of the current part in reverse. -/
def splitDashAux : List Char → List Char → List (List Char)
  | ' ' :: '-' :: ' ' :: rest, acc => acc.reverse :: splitDashAux rest []
  | c :: rest, acc => splitDashAux rest (c :: acc)
  | [], acc => [acc.reverse]

/-- Splitting on every single space, empty parts kept: the semantics of Go
`strings.Split(s, " ")`. -/
def splitSpaceAux : List Char → List Char → List (List Char)
  | ' ' :: rest, acc => acc.reverse :: splitSpaceAux rest []
  | c :: rest, acc => splitSpaceAux rest (c :: acc)
  | [], acc => [acc.reverse]

/-- Go `strings.Split(s, " - ")`. -/
def stringsSplitDash (s : String) : List String :=
  (splitDashAux s.data []).map String.mk

/-- Go `strings.Split(s, " ")`. -/
def stringsSplitSpace (s : String) : List String :=
  (splitSpaceAux s.data []).map String.mk

/-- The inner error of Go `strconv.NumError`: `strconv.ErrSyntax` or
`strconv.ErrRange`. -/
inductive NumErrKind where
  | invalid
  | outOfRange
deriving DecidableEq, Repr

/-- The error values produced by `parseMountInfoFile`, carrying exactly the
data the corresponding Go error values carry:
  * `sepError line` — `fmt.Errorf("invalid mountinfo entry which has more
    that one '-' separator: %s", mountInfoRaw)`;
  * `invalidEntry line` — `fmt.Errorf("invalid mountinfo entry: %s",
    mountInfoRaw)`;
  * `numError fn num kind` — the unwrapped `*strconv.NumError` returned by
    `strconv.ParseInt`, whose fields are the function name (`"ParseInt"`),
    the string being parsed (`Num`), and the wrapped sentinel error. -/
inductive ParseErr where
  | sepError (line : String)
  | invalidEntry (line : String)
  | numError (fn : String) (num : String) (kind : NumErrKind)
deriving DecidableEq, Repr

/-- The raw input line carried by a parse error, when the error value
contains it: the two `fmt.Errorf` errors embed the whole offending line,
while `strconv.NumError` carries only the string passed to `ParseInt`
(a single field, never a whole line, since fields contain no space). -/
def ParseErr.carriedLine : ParseErr → Option String
  | .sepError line => some line
  | .invalidEntry line => some line
  | .numError _ _ _ => none

/-- The offending numeric field identified by a parse error: the `Num`
component of a `strconv.NumError`, absent for the other error kinds. -/
def ParseErr.offendingNum : ParseErr → Option String
  | .sepError _ => none
  | .invalidEntry _ => none
  | .numError _ num _ => some num

/-- Decimal digit test, as in Go `strconv` base-10 parsing. -/
def isDecDigit (c : Char) : Bool :=
  decide ('0' ≤ c) && decide (c ≤ '9')

/-- Value of a digit string, `none` as soon as a non-digit appears: the
accumulation loop of Go `strconv.ParseUint` for base 10 (the empty list maps
to `some 0`; `ParseInt64` rejects the empty digit string separately, as Go
rejects `""`, `"+"` and `"-"`). -/
def decDigitsVal : List Char → Option Nat
  | [] => some 0
  | c :: cs =>
    if isDecDigit c then
      (decDigitsVal cs).map (fun n => (c.toNat - '0'.toNat) * 10 ^ cs.length + n)
    else none

/-- Digit-and-range phase of Go `strconv.ParseInt(s, 10, 64)` after the
sign has been stripped (Go delegates to `strconv.ParseUint` and then
applies the signed 64-bit cutoff): `s` is the original string reported in
errors, `neg` the stripped sign, `digits` the remaining characters.
`""`, a non-digit, and a value outside `[-2^63, 2^63 - 1]` fail. -/
def parseIntCore (s : String) (neg : Bool) (digits : List Char) :
    Except ParseErr Int :=
  if digits.isEmpty then .error (.numError "ParseInt" s .invalid)
  else
    match decDigitsVal digits with
    | none => .error (.numError "ParseInt" s .invalid)
    | some n =>
      if neg then
        if (n : Int) > 2 ^ 63 then .error (.numError "ParseInt" s .outOfRange)
        else .ok (-(n : Int))
      else
        if (n : Int) > 2 ^ 63 - 1 then .error (.numError "ParseInt" s .outOfRange)
        else .ok (n : Int)

/-- Go `strconv.ParseInt(s, 10, 64)`: optional leading `+` or `-`, then
base-10 digits, value constrained to the 64-bit two-complement range.
On failure Go returns the `*strconv.NumError` unchanged; we return its
structured content. -/
def ParseInt64 (s : String) : Except ParseErr Int :=
  match s.data with
  | [] => .error (.numError "ParseInt" s .invalid)
  | c :: cs =>
    if c = '+' then parseIntCore s false cs
    else if c = '-' then parseIntCore s true cs
    else parseIntCore s false (c :: cs)

/-- Go struct `MountInfo`: one parsed line of `/proc/pid/mountinfo`. -/
structure MountInfo where
  MountID : Int
  ParentID : Int
  StDev : String
  Root : String
  MountPoint : String
  MountOptions : String
  OptionalFields : List String
  FilesystemType : String
  MountSource : String
  SuperOptions : String
deriving DecidableEq, Repr

/-- The body of the Go `for scanner.Scan()` loop of `parseMountInfoFile`,
for one scanned line `mountInfoRaw`:
split on `" - "` and require exactly two parts; split both parts on `" "`;
require at least 6 left fields and exactly 3 right fields; parse the first
two left fields with `strconv.ParseInt(_, 10, 64)`; the remaining fields
map positionally into the `MountInfo` literal, the left fields from index 6
onward (the loop `for i := 6; i < len(mountInfoLeft); i++`) becoming
`OptionalFields`. -/
def parseMountInfoLine (mountInfoRaw : String) : Except ParseErr MountInfo :=
  match stringsSplitDash mountInfoRaw with
  | [lpart, rpart] =>
    if (stringsSplitSpace lpart).length < 6 then
      .error (.invalidEntry mountInfoRaw)
    else if (stringsSplitSpace rpart).length ≠ 3 then
      .error (.invalidEntry mountInfoRaw)
    else
      match ParseInt64 ((stringsSplitSpace lpart).getD 0 "") with
      | .error e => .error e
      | .ok mountID =>
        match ParseInt64 ((stringsSplitSpace lpart).getD 1 "") with
        | .error e => .error e
        | .ok parentID =>
          .ok {
            MountID := mountID
            ParentID := parentID
            StDev := (stringsSplitSpace lpart).getD 2 ""
            Root := (stringsSplitSpace lpart).getD 3 ""
            MountPoint := (stringsSplitSpace lpart).getD 4 ""
            MountOptions := (stringsSplitSpace lpart).getD 5 ""
            OptionalFields := (stringsSplitSpace lpart).drop 6
            FilesystemType := (stringsSplitSpace rpart).getD 0 ""
            MountSource := (stringsSplitSpace rpart).getD 1 ""
            SuperOptions := (stringsSplitSpace rpart).getD 2 "" }
  | _ => .error (.sepError mountInfoRaw)

/-- Go `parseMountInfoFile`: the scanner yields one line per iteration (the
input stream is modelled as the list of scanned lines); the first failing
line returns `nil, err`, discarding every entry accumulated so far, exactly
the semantics of the `Except` bind. -/
def parseMountInfoFile : List String → Except ParseErr (List MountInfo)
  | [] => .ok []
  | line :: rest =>
    match parseMountInfoLine line with
    | .error e => .error e
    | .ok entry =>
      match parseMountInfoFile rest with
      | .error e => .error e
      | .ok entries => .ok (entry :: entries)

/-- A Unix error number, as carried by the syscall errors of
`golang.org/x/sys/unix`. Only `ENOENT` is inspected by the code
(`errors.Is(err, unix.ENOENT)`); other errnos are opaque. -/
inductive Errno where
  | enoent
  | eacces
  | other (code : Nat)
deriving DecidableEq, Repr

/-- The part of `unix.Stat_t` the code reads: the `Dev` field (`uint64`). -/
structure Stat where
  dev : Nat
deriving DecidableEq, Repr

/-- The part of `unix.Statfs_t` the code reads: the `Type` field (`int64`,
the filesystem magic number). Named `ftype` because `Type` is reserved. -/
structure Statfs where
  ftype : Int
deriving DecidableEq, Repr

/-- Go `os.PathError`: operation name, path, wrapped cause. -/
structure PathError where
  op : String
  path : String
  err : Errno
deriving DecidableEq, Repr

/-- The external collaborators of `IsMountFS`, abstracted as functions:
`unix.Lstat` (file status without following symlinks), `unix.Statfs`
(filesystem status, reporting the type magic number), and the pure lexical
parent computation `filepath.Dir`. -/
structure Sys where
  lstat : String → Except Errno Stat
  statfs : String → Except Errno Statfs
  filepathDir : String → String

/-- Go `IsMountFS(mntType int64, path string) (bool, bool, error)`:
lstat the path (ENOENT means `(false, false, nil)`, any other failure a
wrapped `lstat` PathError); lstat the lexical parent (any failure a wrapped
`lstat` PathError); equal device IDs mean not a mount point; otherwise
statfs the path and compare the filesystem type magic to `mntType`
(a statfs failure still reports `true` for mount-point-ness). -/
def IsMountFS (sys : Sys) (mntType : Int) (path : String) :
    Bool × Bool × Option PathError :=
  match sys.lstat path with
  | .error e =>
    if e = .enoent then (false, false, none)
    else (false, false, some { op := "lstat", path := path, err := e })
  | .ok st =>
    match sys.lstat (sys.filepathDir path) with
    | .error e =>
      (false, false,
        some { op := "lstat", path := sys.filepathDir path, err := e })
    | .ok pst =>
      if st.dev = pst.dev then (false, false, none)
      else
        match sys.statfs path with
        | .error e =>
          (true, false, some { op := "statfs", path := path, err := e })
        | .ok fstat => (true, decide (fstat.ftype = mntType), none)

/-- A concrete syscall environment used to instantiate the `IsMountFS`
theorems: `/x/y` is a mount point of type magic 7 over parent `/x`;
`/same/a` shares its parent's device; `/denied` fails `lstat` with a
non-ENOENT errno; `/orphan` exists but its parent fails `lstat`;
`/noinfo` is a mount point whose `statfs` fails; everything else is absent. -/
def sysExample : Sys where
  lstat := fun p =>
    if p = "/x/y" then .ok { dev := 5 }
    else if p = "/x" then .ok { dev := 3 }
    else if p = "/same/a" then .ok { dev := 3 }
    else if p = "/same" then .ok { dev := 3 }
    else if p = "/denied" then .error .eacces
    else if p = "/orphan" then .ok { dev := 9 }
    else if p = "/noinfo" then .ok { dev := 11 }
    else if p = "/" then .ok { dev := 3 }
    else .error .enoent
  statfs := fun p =>
    if p = "/x/y" then .ok { ftype := 7 } else .error .eacces
  filepathDir := fun p =>
    if p = "/x/y" then "/x"
    else if p = "/same/a" then "/same"
    else if p = "/orphan" then "/orphanparent"
    else "/"


/-- C1: for every path whose file-status device identifier differs from
that of its lexical parent directory, `IsMountFS` reports
`isMountPoint = true`, with `typeMatches = true` exactly when the
filesystem-status type equals `mntType`; a failing filesystem-status query
yields an error while still reporting `isMountPoint = true`. -/
theorem isMountFS_mount_point_type_check (sys : Sys) (mntType : Int)
    (path : String) (st pst : Stat)
    (hst : sys.lstat path = .ok st)
    (hpst : sys.lstat (sys.filepathDir path) = .ok pst)
    (hdev : st.dev ≠ pst.dev) :
    (∀ fstat, sys.statfs path = .ok fstat →
      IsMountFS sys mntType path = (true, decide (fstat.ftype = mntType), none) ∧
      ((IsMountFS sys mntType path).2.1 = true ↔ fstat.ftype = mntType)) ∧
    (∀ e, sys.statfs path = .error e →
      IsMountFS sys mntType path =
        (true, false, some { op := "statfs", path := path, err := e })) := by
  constructor
  · intro fstat hf
    constructor
    · simp [IsMountFS, hst, hpst, hdev, hf]
    · simp [IsMountFS, hst, hpst, hdev, hf]
  · intro e he
    simp [IsMountFS, hst, hpst, hdev, he]

/-- Witness for C1 at the concrete environment `sysExample`: `/x/y` sits on
device 5 over parent `/x` on device 3 with filesystem magic 7, so querying
for magic 7 answers `(true, true, no error)` and querying for magic 8
answers `(true, false, no error)`. -/
theorem isMountFS_mount_point_type_check_witness :
    IsMountFS sysExample 7 "/x/y" = (true, true, none) ∧
    IsMountFS sysExample 8 "/x/y" = (true, false, none) := by
  constructor
  · exact ((isMountFS_mount_point_type_check sysExample 7 "/x/y"
      { dev := 5 } { dev := 3 } rfl rfl (by decide)).1 { ftype := 7 } rfl).1
  · exact ((isMountFS_mount_point_type_check sysExample 8 "/x/y"
      { dev := 5 } { dev := 3 } rfl rfl (by decide)).1 { ftype := 7 } rfl).1

/-- C3: a path whose no-follow file-status query fails with ENOENT yields
`(false, false)` with no error; any other failure of that query, and any
failure of the parent query, yields a fatal `lstat` `PathError` naming the
queried path. -/
theorem isMountFS_lstat_failure (sys : Sys) (mntType : Int) (path : String) :
    (sys.lstat path = .error .enoent →
      IsMountFS sys mntType path = (false, false, none)) ∧
    (∀ e, sys.lstat path = .error e → e ≠ .enoent →
      IsMountFS sys mntType path =
        (false, false, some { op := "lstat", path := path, err := e })) ∧
    (∀ st e, sys.lstat path = .ok st →
      sys.lstat (sys.filepathDir path) = .error e →
      IsMountFS sys mntType path =
        (false, false,
          some { op := "lstat", path := sys.filepathDir path, err := e })) := by
  refine ⟨?_, ?_, ?_⟩
  · intro h
    simp [IsMountFS, h]
  · intro e h hne
    simp [IsMountFS, h, hne]
  · intro st e hok herr
    simp [IsMountFS, hok, herr]

/-- Witness for C3 at `sysExample`: `/gone` does not exist (no error,
`(false, false)`); `/denied` fails `lstat` with EACCES (fatal error naming
`lstat` and `/denied`); `/orphan` exists but its parent `/orphanparent`
fails `lstat` (fatal error naming `lstat` and the parent). -/
theorem isMountFS_lstat_failure_witness :
    IsMountFS sysExample 7 "/gone" = (false, false, none) ∧
    IsMountFS sysExample 7 "/denied" =
      (false, false, some { op := "lstat", path := "/denied", err := .eacces }) ∧
    IsMountFS sysExample 7 "/orphan" =
      (false, false,
        some { op := "lstat", path := "/orphanparent", err := .enoent }) := by
  refine ⟨?_, ?_, ?_⟩
  · exact (isMountFS_lstat_failure sysExample 7 "/gone").1 rfl
  · exact (isMountFS_lstat_failure sysExample 7 "/denied").2.1 .eacces rfl (by decide)
  · exact (isMountFS_lstat_failure sysExample 7 "/orphan").2.2 { dev := 9 } .enoent rfl rfl

/-- C7: a path whose device identifier equals its lexical parent's yields
`(false, false)` with no error; the filesystem-status oracle `statfsF` is
universally quantified and absent from the hypotheses, so the result is
independent of any filesystem-status query — the code never consults it on
this branch. -/
theorem isMountFS_same_device (lstatF : String → Except Errno Stat)
    (statfsF : String → Except Errno Statfs) (dirF : String → String)
    (mntType : Int) (path : String) (st pst : Stat)
    (hst : lstatF path = .ok st)
    (hpst : lstatF (dirF path) = .ok pst)
    (hdev : st.dev = pst.dev) :
    IsMountFS { lstat := lstatF, statfs := statfsF, filepathDir := dirF }
      mntType path = (false, false, none) := by
  simp only [IsMountFS]
  rw [hst, hpst]
  simp [hdev]

/-- Witness for C7 at `sysExample`: `/same/a` and its parent `/same` are
both on device 3. -/
theorem isMountFS_same_device_witness :
    IsMountFS { lstat := sysExample.lstat, statfs := sysExample.statfs,
                filepathDir := sysExample.filepathDir } 7 "/same/a" =
      (false, false, none) :=
  isMountFS_same_device sysExample.lstat sysExample.statfs
    sysExample.filepathDir 7 "/same/a" { dev := 3 } { dev := 3 } rfl rfl rfl

/-- C9: `IsMountFS` never reports `typeMatches = true` with
`isMountPoint = false`; whenever it reports an error, `typeMatches` is
`false`; and the only error return with `isMountPoint = true` is the one
whose `PathError` names the `statfs` operation. -/
theorem isMountFS_result_shape (sys : Sys) (mntType : Int) (path : String) :
    ((IsMountFS sys mntType path).2.1 = true →
      (IsMountFS sys mntType path).1 = true) ∧
    (∀ pe, (IsMountFS sys mntType path).2.2 = some pe →
      (IsMountFS sys mntType path).2.1 = false ∧
      ((IsMountFS sys mntType path).1 = true → pe.op = "statfs")) := by
  unfold IsMountFS
  rcases hl : sys.lstat path with e | st
  · by_cases he : e = .enoent <;> simp [he]
  · rcases hp : sys.lstat (sys.filepathDir path) with e | pst
    · simp
    · by_cases hdev : st.dev = pst.dev
      · simp [hdev]
      · rcases hs : sys.statfs path with e | fstat
        · simp [hdev]
        · simp [hdev]

/-- Witness for C9 at `sysExample`: on the mount point `/x/y` with magic 7
the detector answers `typeMatches = true`, and the invariant instance
confirms `isMountPoint = true` there. -/
theorem isMountFS_result_shape_witness :
    (IsMountFS sysExample 7 "/x/y").1 = true :=
  (isMountFS_result_shape sysExample 7 "/x/y").1 rfl

/-- If some line of the stream fails to parse, the whole stream fails. -/
theorem parseMountInfoFile_error_of_mem (lines : List String) (line : String)
    (hmem : line ∈ lines) (e : ParseErr)
    (hline : parseMountInfoLine line = .error e) :
    ∃ e2, parseMountInfoFile lines = .error e2 := by
  induction lines with
  | nil => cases hmem
  | cons l rest ih =>
    rcases List.mem_cons.mp hmem with hhead | htail
    · subst hhead
      exact ⟨e, by simp [parseMountInfoFile, hline]⟩
    · rcases hl : parseMountInfoLine l with e3 | entry
      · exact ⟨e3, by simp [parseMountInfoFile, hl]⟩
      · obtain ⟨e2, he2⟩ := ih htail
        exact ⟨e2, by simp [parseMountInfoFile, hl, he2]⟩

/-- Every error branch of `parseIntCore` returns the `strconv.NumError`
shape: function name `"ParseInt"` and the original string. -/
theorem parseIntCore_error_shape (s : String) (neg : Bool)
    (digits : List Char) (e : ParseErr)
    (h : parseIntCore s neg digits = .error e) :
    ∃ k, e = ParseErr.numError "ParseInt" s k := by
  unfold parseIntCore at h
  repeat' split at h
  all_goals simp only [Except.error.injEq, reduceCtorEq] at h
  all_goals exact ⟨_, h.symm⟩

/-- Every error branch of `ParseInt64` returns the `strconv.NumError`
shape: function name `"ParseInt"` and the parsed string itself. -/
theorem ParseInt64_error_shape (s : String) (e : ParseErr)
    (h : ParseInt64 s = .error e) :
    ∃ k, e = ParseErr.numError "ParseInt" s k := by
  unfold ParseInt64 at h
  split at h
  · exact ⟨_, by injection h with h2; exact h2.symm⟩
  · split at h
    · exact parseIntCore_error_shape _ _ _ _ h
    · split at h
      · exact parseIntCore_error_shape _ _ _ _ h
      · exact parseIntCore_error_shape _ _ _ _ h

/-- C2: a line without exactly one `" - "` occurrence (the split has a
number of parts other than two), or with fewer than 6 left fields, or with
a number of right fields other than 3, fails to parse, and any stream
containing such a line yields no entries at all. -/
theorem parseMountInfoLine_malformed_fails (line : String)
    (h : (stringsSplitDash line).length ≠ 2 ∨
         (stringsSplitSpace ((stringsSplitDash line).getD 0 "")).length < 6 ∨
         (stringsSplitSpace ((stringsSplitDash line).getD 1 "")).length ≠ 3) :
    (∃ e, parseMountInfoLine line = .error e) ∧
    ∀ lines, line ∈ lines → ∃ e2, parseMountInfoFile lines = .error e2 := by
  have hline : ∃ e, parseMountInfoLine line = .error e := by
    unfold parseMountInfoLine
    split
    case h_1 lpart rpart heq =>
      rw [heq] at h
      rcases h with hlen | h6 | h3
      · simp at hlen
      · simp only [List.getD_cons_zero] at h6
        rw [if_pos h6]
        exact ⟨_, rfl⟩
      · simp only [List.getD_cons_succ, List.getD_cons_zero] at h3
        by_cases h6 : (stringsSplitSpace lpart).length < 6
        · rw [if_pos h6]
          exact ⟨_, rfl⟩
        · rw [if_neg h6, if_pos h3]
          exact ⟨_, rfl⟩
    case h_2 => exact ⟨_, rfl⟩
  obtain ⟨e, he⟩ := hline
  exact ⟨⟨e, he⟩, fun lines hmem =>
    parseMountInfoFile_error_of_mem lines line hmem e he⟩

/-- Witness for C2 on three concrete malformed lines: no `" - "`
separator at all, a left part with only two fields, and a right part with
four fields; a stream containing the first one also fails. -/
theorem parseMountInfoLine_malformed_fails_witness :
    (∃ e, parseMountInfoLine "no separator here" = .error e) ∧
    (∃ e, parseMountInfoLine "17 1 - ext4 /dev/sda1 rw" = .error e) ∧
    (∃ e, parseMountInfoLine "17 1 8:1 / / rw - ext4 /dev/sda1 rw extra" = .error e) ∧
    (∃ e2, parseMountInfoFile ["17 1 8:1 / / rw - ext4 sda1 rw", "no separator here"] = .error e2) := by
  refine ⟨?_, ?_, ?_, ?_⟩
  · exact (parseMountInfoLine_malformed_fails "no separator here"
      (Or.inl (by decide))).1
  · exact (parseMountInfoLine_malformed_fails "17 1 - ext4 /dev/sda1 rw"
      (Or.inr (by decide))).1
  · exact (parseMountInfoLine_malformed_fails "17 1 8:1 / / rw - ext4 /dev/sda1 rw extra"
      (Or.inr (by decide))).1
  · exact (parseMountInfoLine_malformed_fails "no separator here"
      (Or.inl (by decide))).2 _ (by simp)

/-- C4: a well-formed line with `6 + K` left fields and exactly 3 right
fields parses to the entry mapping left fields 2 to 5 positionally to
`StDev`, `Root`, `MountPoint`, `MountOptions`, right fields 0 to 2 to
`FilesystemType`, `MountSource`, `SuperOptions`, with `OptionalFields`
exactly the left fields from index 6 onward, in order, of length K. -/
theorem parseMountInfoLine_wellformed (line lpart rpart : String)
    (left : List String) (f0 f1 f2 : String) (mid pid : Int)
    (hsep : stringsSplitDash line = [lpart, rpart])
    (hleft : stringsSplitSpace lpart = left)
    (hlen : 6 ≤ left.length)
    (hright : stringsSplitSpace rpart = [f0, f1, f2])
    (hmid : ParseInt64 (left.getD 0 "") = .ok mid)
    (hpid : ParseInt64 (left.getD 1 "") = .ok pid) :
    parseMountInfoLine line = .ok
      { MountID := mid, ParentID := pid,
        StDev := left.getD 2 "", Root := left.getD 3 "",
        MountPoint := left.getD 4 "", MountOptions := left.getD 5 "",
        OptionalFields := left.drop 6,
        FilesystemType := f0, MountSource := f1, SuperOptions := f2 } ∧
    (left.drop 6).length = left.length - 6 := by
  constructor
  · unfold parseMountInfoLine
    rw [hsep]
    simp only []
    rw [hleft, hright]
    rw [if_neg (by omega)]
    rw [if_neg (by simp)]
    rw [hmid]
    simp only []
    rw [hpid]
    simp only [List.getD_cons_zero, List.getD_cons_succ]
  · simp

/-- Witness for C4 on the documentation example line, which carries exactly
one optional field. -/
theorem parseMountInfoLine_wellformed_witness :
    parseMountInfoLine
      "17 1 8:1 / / rw,relatime shared:1 - ext4 /dev/sda1 rw,errors=remount-ro" =
    .ok { MountID := 17, ParentID := 1, StDev := "8:1", Root := "/",
          MountPoint := "/", MountOptions := "rw,relatime",
          OptionalFields := ["shared:1"], FilesystemType := "ext4",
          MountSource := "/dev/sda1",
          SuperOptions := "rw,errors=remount-ro" } ∧
    (["17", "1", "8:1", "/", "/", "rw,relatime", "shared:1"].drop 6).length =
      (["17", "1", "8:1", "/", "/", "rw,relatime", "shared:1"] : List String).length - 6 :=
  parseMountInfoLine_wellformed
    "17 1 8:1 / / rw,relatime shared:1 - ext4 /dev/sda1 rw,errors=remount-ro"
    "17 1 8:1 / / rw,relatime shared:1" "ext4 /dev/sda1 rw,errors=remount-ro"
    ["17", "1", "8:1", "/", "/", "rw,relatime", "shared:1"]
    "ext4" "/dev/sda1" "rw,errors=remount-ro" 17 1
    rfl rfl (by decide) rfl rfl rfl

/-- C6: a stream whose lines up to the first malformed one are well formed
fails whole with that first line's error, returning no entries at all. -/
theorem parseMountInfoFile_aborts_at_first_malformed
    (pre post : List String) (bad : String) (e : ParseErr)
    (hpre : ∀ l ∈ pre, ∃ m, parseMountInfoLine l = .ok m)
    (hbad : parseMountInfoLine bad = .error e) :
    parseMountInfoFile (pre ++ bad :: post) = .error e := by
  induction pre with
  | nil => simp [parseMountInfoFile, hbad]
  | cons l rest ih =>
    obtain ⟨m, hm⟩ := hpre l (by simp)
    have hrest := ih (fun l2 h2 => hpre l2 (by simp [h2]))
    simp only [List.cons_append]
    simp [parseMountInfoFile, hm, hrest]

/-- Witness for C6: a five-line stream whose third line is malformed fails
with the separator error of that third line. -/
theorem parseMountInfoFile_aborts_at_first_malformed_witness :
    parseMountInfoFile
      ["17 1 8:1 / / rw - ext4 sda1 rw",
       "18 17 0:5 / /dev rw - devtmpfs devtmpfs rw",
       "19 17 garbage",
       "20 17 0:6 / /sys rw - sysfs sysfs rw",
       "21 17 0:7 / /proc rw - proc proc rw"] =
    .error (.sepError "19 17 garbage") := by
  have h := parseMountInfoFile_aborts_at_first_malformed
    ["17 1 8:1 / / rw - ext4 sda1 rw",
     "18 17 0:5 / /dev rw - devtmpfs devtmpfs rw"]
    ["20 17 0:6 / /sys rw - sysfs sysfs rw",
     "21 17 0:7 / /proc rw - proc proc rw"]
    "19 17 garbage" (.sepError "19 17 garbage")
    (by
      intro l hl
      rcases List.mem_cons.mp hl with h1 | h2
      · subst h1
        exact ⟨_, rfl⟩
      · rcases List.mem_cons.mp h2 with h3 | h4
        · subst h3
          exact ⟨_, rfl⟩
        · cases h4)
    rfl
  exact h

/-- C8: the empty stream parses to the empty sequence, and any stream all
of whose lines are well formed parses successfully. -/
theorem parseMountInfoFile_empty_and_ok :
    parseMountInfoFile [] = .ok [] ∧
    ∀ lines, (∀ l ∈ lines, ∃ m, parseMountInfoLine l = .ok m) →
      ∃ entries, parseMountInfoFile lines = .ok entries := by
  refine ⟨rfl, ?_⟩
  intro lines h
  induction lines with
  | nil => exact ⟨[], rfl⟩
  | cons l rest ih =>
    obtain ⟨m, hm⟩ := h l (by simp)
    obtain ⟨es, hes⟩ := ih (fun x hx => h x (by simp [hx]))
    exact ⟨m :: es, by simp [parseMountInfoFile, hm, hes]⟩

/-- Witness for C8: a concrete one-line well-formed stream succeeds. -/
theorem parseMountInfoFile_empty_and_ok_witness :
    ∃ entries,
      parseMountInfoFile ["17 1 8:1 / / rw - ext4 /dev/sda1 rw"] =
        .ok entries :=
  parseMountInfoFile_empty_and_ok.2 _ (by
    intro l hl
    rcases List.mem_cons.mp hl with h1 | h2
    · subst h1
      exact ⟨_, rfl⟩
    · cases h2)

/-- C10: splitting keeps empty fields: a line with two consecutive spaces
in the left part (field 3, `Root`) and in the right part (field 1,
`MountSource`) parses successfully, the corresponding field values being
the empty string. -/
theorem parse_consecutive_spaces_empty_field :
    parseMountInfoFile ["0 1 a  b c d - e  f"] =
      .ok [{ MountID := 0, ParentID := 1, StDev := "a", Root := "",
             MountPoint := "b", MountOptions := "c", OptionalFields := ["d"],
             FilesystemType := "e", MountSource := "", SuperOptions := "f" }] :=
  rfl

/-- C5 (amended): a well-formed line whose first or second left field is
not a valid base-10 64-bit integer fails to parse, and the resulting error
is the raw `strconv.NumError`, which identifies the offending field (its
`Num` component is that field verbatim) but carries no raw offending line:
the code returns the `strconv.ParseInt` error unwrapped. -/
theorem parseMountInfoLine_nonnumeric_field (line lpart rpart : String)
    (left : List String) (e : ParseErr)
    (hsep : stringsSplitDash line = [lpart, rpart])
    (hleft : stringsSplitSpace lpart = left)
    (hlen : 6 ≤ left.length)
    (hrlen : (stringsSplitSpace rpart).length = 3)
    (h : ParseInt64 (left.getD 0 "") = .error e ∨
         ((∃ v, ParseInt64 (left.getD 0 "") = .ok v) ∧
          ParseInt64 (left.getD 1 "") = .error e)) :
    parseMountInfoLine line = .error e ∧
    (e.offendingNum = some (left.getD 0 "") ∨
     e.offendingNum = some (left.getD 1 "")) ∧
    e.carriedLine = none := by
  have hshape : (e.offendingNum = some (left.getD 0 "") ∨
      e.offendingNum = some (left.getD 1 "")) ∧ e.carriedLine = none := by
    rcases h with h0 | ⟨-, h1⟩
    · obtain ⟨k, hk⟩ := ParseInt64_error_shape _ _ h0
      subst hk
      exact ⟨Or.inl rfl, rfl⟩
    · obtain ⟨k, hk⟩ := ParseInt64_error_shape _ _ h1
      subst hk
      exact ⟨Or.inr rfl, rfl⟩
  refine ⟨?_, hshape⟩
  unfold parseMountInfoLine
  rw [hsep]
  simp only []
  rw [hleft]
  rw [if_neg (by omega)]
  rw [if_neg (by omega)]
  rcases h with h0 | ⟨⟨v, hv⟩, h1⟩
  · rw [h0]
  · rw [hv]
    simp only []
    rw [h1]

/-- Witness for C5 (amended) on a line whose first field `zz` is not
numeric. -/
theorem parseMountInfoLine_nonnumeric_field_witness :
    parseMountInfoLine "zz 1 a b c d - e f g" =
      .error (.numError "ParseInt" "zz" .invalid) ∧
    ((ParseErr.numError "ParseInt" "zz" NumErrKind.invalid).offendingNum =
       some ((["zz", "1", "a", "b", "c", "d"] : List String).getD 0 "") ∨
     (ParseErr.numError "ParseInt" "zz" NumErrKind.invalid).offendingNum =
       some ((["zz", "1", "a", "b", "c", "d"] : List String).getD 1 "")) ∧
    (ParseErr.numError "ParseInt" "zz" NumErrKind.invalid).carriedLine = none :=
  parseMountInfoLine_nonnumeric_field "zz 1 a b c d - e f g"
    "zz 1 a b c d" "e f g" ["zz", "1", "a", "b", "c", "d"]
    (.numError "ParseInt" "zz" .invalid)
    rfl rfl (by decide) rfl (Or.inl rfl)

/-- C5 counterexample: on the concrete line `x@ 1 a b c d - e f g`, whose
first field `x@` is not numeric, parsing fails with the raw
`strconv.NumError`; that error carries no input line at all (and in
particular not this one), refuting the claim that the parse error carries
the raw offending line. -/
theorem parseInt_error_drops_line :
    parseMountInfoLine "x@ 1 a b c d - e f g" =
      .error (.numError "ParseInt" "x@" .invalid) ∧
    (ParseErr.numError "ParseInt" "x@" NumErrKind.invalid).carriedLine = none ∧
    (ParseErr.numError "ParseInt" "x@" NumErrKind.invalid).carriedLine ≠
      some "x@ 1 a b c d - e f g" :=
  ⟨rfl, rfl, by decide⟩
